import Mathlib

/-!
Shallow embedding of the SwiftLink authentication screens.

The repository consists of two React Native screens,
SignUpScreen.js and SignInScreen.js.  The logic the claims are about
lives in the submit handlers handleSignUp and handleSignIn.  Each
handler is embedded here as a pure function from the form fields and
an abstract gateway outcome to the list of observable steps the
handler performs, in program order: status-message updates, alerts,
loading-flag updates, the gateway invocation, form-field updates and
navigation.  Actions performed inside an alert acknowledgment
callback (clearing the form and navigating) are recorded at the point
the alert is raised.  JavaScript string truthiness is modelled by
String.isEmpty, and the email regular expression by an explicit
backtracking matcher over the character list.
-/

/-- Character class test for the JavaScript regex class backslash-s
(ECMAScript WhiteSpace plus LineTerminator code points). -/
def isJsSpace (c : Char) : Bool :=
  c = '\t' || c = '\n' || c.val = 0x0b || c.val = 0x0c || c = '\r' || c = ' ' ||
  c.val = 0xa0 || c.val = 0x1680 || (0x2000 ≤ c.val && c.val ≤ 0x200a) ||
  c.val = 0x2028 || c.val = 0x2029 || c.val = 0x202f || c.val = 0x205f ||
  c.val = 0x3000 || c.val = 0xfeff

/-- The character class of the email regex: any character that is neither
whitespace nor the at sign. -/
def emailChar (c : Char) : Bool :=
  !(isJsSpace c) && c ≠ '@'

/-- Backtracking matcher for a one-or-more repetition of a character class
followed by a continuation: plusThen p k l holds when l splits as a
nonempty block of p-characters followed by a suffix accepted by k. -/
def plusThen (p : Char → Bool) (k : List Char → Bool) : List Char → Bool
  | [] => false
  | c :: rest => p c && (k rest || plusThen p k rest)

/-- The anchored email regex of both screens,
caret [^backslash-s@]+ @ [^backslash-s@]+ backslash-dot [^backslash-s@]+ dollar,
as a whole-string matcher. -/
def emailRegexTest (s : String) : Bool :=
  plusThen emailChar (fun l₁ =>
    match l₁ with
    | '@' :: l₂ =>
      plusThen emailChar (fun l₃ =>
        match l₃ with
        | '.' :: l₄ => plusThen emailChar List.isEmpty l₄
        | _ => false) l₂
    | _ => false) s.data

/-- Boolean test that a needle list occurs at the head of a haystack list. -/
def listPrefixOf : List Char → List Char → Bool
  | [], _ => true
  | _ :: _, [] => false
  | a :: as, b :: bs => a == b && listPrefixOf as bs

/-- Boolean test that a needle list occurs contiguously anywhere in a
haystack list. -/
def listOccurs (needle : List Char) : List Char → Bool
  | [] => needle.isEmpty
  | c :: rest => listPrefixOf needle (c :: rest) || listOccurs needle rest

/-- JavaScript String.prototype.includes: strIncludes hay sub tests whether
sub occurs contiguously in hay. -/
def strIncludes (hay sub : String) : Bool :=
  listOccurs sub.data hay.data

/-- The six form fields of the sign-up screen. -/
structure SignUpForm where
  fullName : String
  email : String
  password : String
  phone : String
  nationalID : String
  role : String
deriving DecidableEq, Repr

/-- The sign-in screen form state: two text fields and the selected role. -/
structure SignInForm where
  email : String
  password : String
  role : String
deriving DecidableEq, Repr

/-- The local validation failures a handler can report before any network
activity. -/
inductive ValidationError where
  | missingFields
  | invalidEmail
  | weakPassword
deriving DecidableEq, Repr

/-- The condition of the first early return of handleSignUp, line 49 of
SignUpScreen.js: some required field is falsy, that is, empty. -/
def signUpMissing (f : SignUpForm) : Bool :=
  f.fullName.isEmpty || f.email.isEmpty || f.password.isEmpty ||
  f.phone.isEmpty || f.nationalID.isEmpty || f.role.isEmpty

/-- The condition of the first early return of handleSignIn, line 48 of
SignInScreen.js: email or password is empty. -/
def signInMissing (g : SignInForm) : Bool :=
  g.email.isEmpty || g.password.isEmpty

/-- The validation prefix of handleSignUp, lines 49 to 68 of
SignUpScreen.js, as the Validator of the specification: the first failing
check, or none when every check passes. -/
def signUpValidate (f : SignUpForm) : Option ValidationError :=
  if signUpMissing f then some ValidationError.missingFields
  else if !emailRegexTest f.email then some ValidationError.invalidEmail
  else if f.password.length < 6 then some ValidationError.weakPassword
  else none

/-- The validation prefix of handleSignIn, lines 48 to 59 of
SignInScreen.js. -/
def signInValidate (g : SignInForm) : Option ValidationError :=
  if signInMissing g then some ValidationError.missingFields
  else if !emailRegexTest g.email then some ValidationError.invalidEmail
  else none

/-- An observable step of a submit handler. -/
inductive Step where
  | setStatus (msg : String)
  | alert (title body : String)
  | setLoading (b : Bool)
  | callRegister (fullName email password phone nationalID role : String)
  | callLogin (email password role : String)
  | setField (field value : String)
  | navigate (target : String) (params : List (String × String))
deriving DecidableEq, Repr

/-- Whether a step is an invocation of the remote gateway. -/
def Step.isGatewayCall : Step → Bool
  | Step.callRegister _ _ _ _ _ _ => true
  | Step.callLogin _ _ _ => true
  | _ => false

/-- Whether a step is a navigation. -/
def Step.isNavigate : Step → Bool
  | Step.navigate _ _ => true
  | _ => false

/-- Outcome of the registration fetch of handleSignUp: the transport (or
body parsing) throws, or the server responds with ok (2xx or not) and an
optional message field in the JSON body. -/
inductive FetchOutcome where
  | throws
  | responds (ok : Bool) (message : Option String)
deriving DecidableEq, Repr

/-- Outcome of the login call of handleSignIn: it throws, resolves to a
falsy value, or resolves to a token and a user id. -/
inductive LoginOutcome where
  | throws
  | failure
  | success (token userId : String)
deriving DecidableEq, Repr

/-- handleSignUp of SignUpScreen.js, lines 44 to 138, as the list of steps
it performs on the given form and gateway outcome.  The success-alert
acknowledgment callback (clear the six fields, navigate to SignIn) is
recorded at the alert. -/
def handleSignUp (f : SignUpForm) (outcome : FetchOutcome) : List Step :=
  Step.setStatus "" ::
  if signUpMissing f then
    [Step.setStatus "❌ Please fill in all fields",
     Step.alert "Missing Information" "Please fill in all fields before signing up."]
  else if !emailRegexTest f.email then
    [Step.setStatus "❌ Invalid email format",
     Step.alert "Invalid Email" "Please enter a valid email address."]
  else if f.password.length < 6 then
    [Step.setStatus "❌ Password too short",
     Step.alert "Weak Password" "Password must be at least 6 characters long."]
  else
    Step.setLoading true ::
    Step.setStatus "🔄 Creating your account..." ::
    Step.callRegister f.fullName f.email f.password f.phone f.nationalID f.role ::
    ((match outcome with
      | FetchOutcome.responds true _ =>
        [Step.setStatus "✅ Account created successfully!",
         Step.alert "🎉 Success!"
           "Your account has been created successfully! Please sign in to continue.",
         Step.setField "fullName" "", Step.setField "email" "",
         Step.setField "password" "", Step.setField "phone" "",
         Step.setField "nationalID" "", Step.setField "role" "",
         Step.navigate "SignIn" []]
      | FetchOutcome.responds false m =>
        let errorMessage :=
          match m with
          | some msg =>
            if msg.isEmpty then "Registration failed. Please try again."
            else if strIncludes msg "Email already registered" then
              "This email is already registered. Please sign in or use a different email."
            else msg
          | none => "Registration failed. Please try again."
        [Step.setStatus ("❌ " ++ errorMessage),
         Step.alert "Registration Failed" errorMessage]
      | FetchOutcome.throws =>
        [Step.setStatus "❌ Connection error",
         Step.alert "Connection Error"
           "Could not connect to the server. Please check your internet connection and try again."]) ++
     [Step.setLoading false])

/-- handleSignIn of SignInScreen.js, lines 43 to 112, as the list of steps
it performs on the given form and login outcome.  The welcome-alert
acknowledgment callback (role-conditional navigation) is recorded at the
alert. -/
def handleSignIn (g : SignInForm) (outcome : LoginOutcome) : List Step :=
  Step.setStatus "" ::
  if signInMissing g then
    [Step.setStatus "❌ Please fill all fields",
     Step.alert "Missing Information" "Please enter both email and password."]
  else if !emailRegexTest g.email then
    [Step.setStatus "❌ Invalid email format",
     Step.alert "Invalid Email" "Please enter a valid email address."]
  else
    Step.setLoading true ::
    Step.setStatus "🔄 Signing in..." ::
    Step.callLogin g.email g.password g.role ::
    ((match outcome with
      | LoginOutcome.failure =>
        [Step.setStatus "❌ Login failed - Invalid credentials",
         Step.alert "Login Failed" "Invalid email or password. Please try again."]
      | LoginOutcome.success token userId =>
        [Step.setStatus "✅ Login successful!",
         Step.alert "🎉 Welcome Back!" ("You\x27re now signed in as " ++ g.role ++ "."),
         if g.role = "agent" then
           Step.navigate "AgentChat" [("agentId", userId), ("token", token)]
         else
           Step.navigate "Dashboard" [("role", g.role)]]
      | LoginOutcome.throws =>
        [Step.setStatus "❌ Connection error",
         Step.alert "Connection Error"
           "Could not connect to the server. Please check your internet connection and try again."]) ++
     [Step.setLoading false])

/-- The role options rendered by the sign-in screen, line 133 of
SignInScreen.js. -/
def signInRoles : List String :=
  ["sender", "carrier", "agent", "receiver"]

/-- The sign-in role state after a sequence of role-button presses, each
press selecting one of the rendered options; the initial state is the
useState initializer of line 38 of SignInScreen.js. -/
def roleAfterPresses (presses : List (Fin signInRoles.length)) : String :=
  presses.foldl (fun _ i => signInRoles.get i) "sender"

example : emailRegexTest "jane@example.com" = true := by decide
example : emailRegexTest "bad-email" = false := by decide
example : emailRegexTest "a b@c.d" = false := by decide
example : emailRegexTest "a@b.c.d" = true := by decide
example : strIncludes "User with Email already registered here" "Email already registered" = true := by decide
example : signUpValidate ⟨"Jane Doe", "jane@example.com", "secret1", "555-0100", "X123", "sender"⟩ = none := by decide

/-- Characterization of a passing sign-up validation in terms of the three
checks of lines 49 to 68 of SignUpScreen.js. -/
theorem signUpValidate_none_iff (f : SignUpForm) :
    signUpValidate f = none ↔
      signUpMissing f = false ∧ emailRegexTest f.email = true ∧
        ¬ f.password.length < 6 := by
  unfold signUpValidate
  cases h1 : signUpMissing f <;> cases h2 : emailRegexTest f.email <;>
    by_cases h3 : f.password.length < 6 <;> simp [h1, h2, h3]

/-- Characterization of a passing sign-in validation in terms of the two
checks of lines 48 to 59 of SignInScreen.js. -/
theorem signInValidate_none_iff (g : SignInForm) :
    signInValidate g = none ↔
      signInMissing g = false ∧ emailRegexTest g.email = true := by
  unfold signInValidate
  cases h1 : signInMissing g <;> cases h2 : emailRegexTest g.email <;>
    simp [h1, h2]

/-- The sign-up handler performs a gateway call exactly when its validation
prefix passes. -/
theorem handleSignUp_gateway_iff (f : SignUpForm) (o : FetchOutcome) :
    (handleSignUp f o).any Step.isGatewayCall = true ↔ signUpValidate f = none := by
  cases h1 : signUpMissing f <;> cases h2 : emailRegexTest f.email <;>
    by_cases h3 : f.password.length < 6 <;>
    rcases o with _ | ⟨(_|_), m⟩ <;>
    simp [handleSignUp, signUpValidate, Step.isGatewayCall, h1, h2, h3]

/-- The sign-in handler performs a gateway call exactly when its validation
prefix passes. -/
theorem handleSignIn_gateway_iff (g : SignInForm) (p : LoginOutcome) :
    (handleSignIn g p).any Step.isGatewayCall = true ↔ signInValidate g = none := by
  cases h1 : signInMissing g <;> cases h2 : emailRegexTest g.email <;>
    rcases p with _ | _ | ⟨t, u⟩ <;> by_cases hr : g.role = "agent" <;>
    simp [handleSignIn, signInValidate, Step.isGatewayCall, h1, h2, hr]

/-- C1: on either screen the remote gateway is invoked only if every local
validation has passed; in particular, whenever a required field is empty
the handler records the missing-fields error status and the gateway is
never invoked. -/
theorem gateway_only_after_validation (f : SignUpForm) (g : SignInForm)
    (o : FetchOutcome) (p : LoginOutcome) :
    ((handleSignUp f o).any Step.isGatewayCall = true → signUpValidate f = none) ∧
    ((handleSignIn g p).any Step.isGatewayCall = true → signInValidate g = none) ∧
    (signUpMissing f = true →
      signUpValidate f = some ValidationError.missingFields ∧
      (handleSignUp f o).any Step.isGatewayCall = false ∧
      Step.setStatus "❌ Please fill in all fields" ∈ handleSignUp f o) ∧
    (signInMissing g = true →
      signInValidate g = some ValidationError.missingFields ∧
      (handleSignIn g p).any Step.isGatewayCall = false ∧
      Step.setStatus "❌ Please fill all fields" ∈ handleSignIn g p) := by
  refine ⟨fun h => (handleSignUp_gateway_iff f o).1 h,
          fun h => (handleSignIn_gateway_iff g p).1 h, ?_, ?_⟩
  · intro h1
    refine ⟨by simp [signUpValidate, h1], ?_, by simp [handleSignUp, h1]⟩
    cases hA : (handleSignUp f o).any Step.isGatewayCall
    · rfl
    · exact absurd ((handleSignUp_gateway_iff f o).1 hA)
        (by simp [signUpValidate, h1])
  · intro k1
    refine ⟨by simp [signInValidate, k1], ?_, by simp [handleSignIn, k1]⟩
    cases hA : (handleSignIn g p).any Step.isGatewayCall
    · rfl
    · exact absurd ((handleSignIn_gateway_iff g p).1 hA)
        (by simp [signInValidate, k1])

/-- Concrete instance of C1: the gateway is invoked on a fully valid
sign-up form, and never when the full name is empty. -/
theorem gateway_only_after_validation_witness :
    signUpValidate ⟨"Jane Doe", "jane@example.com", "secret1", "555-0100", "X123", "sender"⟩ = none ∧
    (handleSignUp ⟨"", "jane@example.com", "secret1", "555-0100", "X123", "sender"⟩
        FetchOutcome.throws).any Step.isGatewayCall = false := by
  constructor
  · exact (gateway_only_after_validation
      ⟨"Jane Doe", "jane@example.com", "secret1", "555-0100", "X123", "sender"⟩
      ⟨"jane@example.com", "secret1", "sender"⟩
      FetchOutcome.throws LoginOutcome.throws).1 (by decide)
  · exact ((gateway_only_after_validation
      ⟨"", "jane@example.com", "secret1", "555-0100", "X123", "sender"⟩
      ⟨"jane@example.com", "secret1", "sender"⟩
      FetchOutcome.throws LoginOutcome.throws).2.2.1 (by decide)).2.1

/-- C2: for every submit attempt that passes local validation, loading is
set to true strictly before the gateway call, the gateway call happens, and
the final step of the attempt resets loading to false, on every outcome:
success, failure and thrown exception, on both screens. -/
theorem loading_set_and_reset (f : SignUpForm) (g : SignInForm)
    (o : FetchOutcome) (p : LoginOutcome)
    (hf : signUpValidate f = none) (hg : signInValidate g = none) :
    (Step.setLoading true ∈
        (handleSignUp f o).takeWhile (fun s => ! s.isGatewayCall) ∧
     (handleSignUp f o).any Step.isGatewayCall = true ∧
     (handleSignUp f o).getLast? = some (Step.setLoading false)) ∧
    (Step.setLoading true ∈
        (handleSignIn g p).takeWhile (fun s => ! s.isGatewayCall) ∧
     (handleSignIn g p).any Step.isGatewayCall = true ∧
     (handleSignIn g p).getLast? = some (Step.setLoading false)) := by
  obtain ⟨h1, h2, h3⟩ := (signUpValidate_none_iff f).1 hf
  obtain ⟨k1, k2⟩ := (signInValidate_none_iff g).1 hg
  refine ⟨⟨?_, (handleSignUp_gateway_iff f o).2 hf, ?_⟩,
          ⟨?_, (handleSignIn_gateway_iff g p).2 hg, ?_⟩⟩
  · simp [handleSignUp, h1, h2, h3, Step.isGatewayCall]
  · rcases o with _ | ⟨(_|_), m⟩ <;>
      simp [handleSignUp, h1, h2, h3, List.getLast?_cons_cons]
  · simp [handleSignIn, k1, k2, Step.isGatewayCall]
  · rcases p with _ | _ | ⟨t, u⟩ <;> by_cases hr : g.role = "agent" <;>
      simp [handleSignIn, k1, k2, hr, List.getLast?_cons_cons]

/-- Concrete instance of C2: on a valid sign-in form whose login call
resolves falsy, the last step resets loading to false. -/
theorem loading_set_and_reset_witness :
    (handleSignIn ⟨"jane@example.com", "secret1", "sender"⟩
        LoginOutcome.failure).getLast? = some (Step.setLoading false) :=
  (loading_set_and_reset
    ⟨"Jane Doe", "jane@example.com", "secret1", "555-0100", "X123", "sender"⟩
    ⟨"jane@example.com", "secret1", "sender"⟩
    FetchOutcome.throws LoginOutcome.failure
    (by decide) (by decide)).2.2.2

/-- C7: every registration input whose password is shorter than six
characters fails validation and never reaches the gateway, whatever the
other fields contain. -/
theorem weak_password_rejected (f : SignUpForm) (o : FetchOutcome)
    (h : f.password.length < 6) :
    signUpValidate f ≠ none ∧
    (handleSignUp f o).any Step.isGatewayCall = false := by
  constructor
  · intro hnone
    exact absurd ((signUpValidate_none_iff f).1 hnone).2.2 (by exact fun hk => hk h)
  · cases hA : (handleSignUp f o).any Step.isGatewayCall
    · rfl
    · have := (handleSignUp_gateway_iff f o).1 hA
      exact absurd ((signUpValidate_none_iff f).1 this).2.2 (fun hk => hk h)

/-- Concrete instance of C7: a five-character password is rejected even
though every other field is valid. -/
theorem weak_password_rejected_witness :
    signUpValidate ⟨"Jane Doe", "jane@example.com", "abcde", "555-0100", "X123", "sender"⟩ ≠ none ∧
    (handleSignUp ⟨"Jane Doe", "jane@example.com", "abcde", "555-0100", "X123", "sender"⟩
        FetchOutcome.throws).any Step.isGatewayCall = false :=
  weak_password_rejected
    ⟨"Jane Doe", "jane@example.com", "abcde", "555-0100", "X123", "sender"⟩
    FetchOutcome.throws (by decide)

/-- C3 counterexample: bad-email does not match the email shape, yet with
an empty password the sign-in validator reports the missing-fields error
and not the invalid-email error, because the required-fields check runs
first. -/
theorem invalid_email_masked_by_missing_fields :
    emailRegexTest "bad-email" = false ∧
    signInValidate ⟨"bad-email", "", "sender"⟩ = some ValidationError.missingFields ∧
    signInValidate ⟨"bad-email", "", "sender"⟩ ≠ some ValidationError.invalidEmail ∧
    signUpValidate ⟨"", "bad-email", "secret1", "555-0100", "X123", "sender"⟩ =
      some ValidationError.missingFields := by
  decide

/-- C3 (amended): for every input whose required fields are all non-empty
and whose email string does not match the shape x at y dot z, the validator
of either screen returns the invalid-email error. -/
theorem invalid_email_rejected (f : SignUpForm) (g : SignInForm)
    (hf : signUpMissing f = false) (hg : signInMissing g = false)
    (hef : emailRegexTest f.email = false) (heg : emailRegexTest g.email = false) :
    signUpValidate f = some ValidationError.invalidEmail ∧
    signInValidate g = some ValidationError.invalidEmail := by
  constructor
  · simp [signUpValidate, hf, hef]
  · simp [signInValidate, hg, heg]

/-- Concrete instance of C3 (amended): a filled form with a malformed email
is rejected with the invalid-email error on both screens. -/
theorem invalid_email_rejected_witness :
    signUpValidate ⟨"Jane Doe", "bad-email", "secret1", "555-0100", "X123", "sender"⟩ =
      some ValidationError.invalidEmail ∧
    signInValidate ⟨"bad-email", "secret1", "sender"⟩ =
      some ValidationError.invalidEmail :=
  invalid_email_rejected
    ⟨"Jane Doe", "bad-email", "secret1", "555-0100", "X123", "sender"⟩
    ⟨"bad-email", "secret1", "sender"⟩
    (by decide) (by decide) (by decide) (by decide)

/-- C4: on a validated registration whose server response is non-2xx the
flow fails: a non-empty server-supplied message is surfaced, a message
containing Email already registered is replaced by the friendlier mapped
text, a missing message falls back to a generic text, the handler never
navigates, and its final step resets loading to false. -/
theorem registration_non2xx_failure (f : SignUpForm) (m : String)
    (hf : signUpValidate f = none) :
    (m.isEmpty = false → strIncludes m "Email already registered" = true →
      handleSignUp f (FetchOutcome.responds false (some m)) =
        [Step.setStatus "", Step.setLoading true,
         Step.setStatus "🔄 Creating your account...",
         Step.callRegister f.fullName f.email f.password f.phone f.nationalID f.role,
         Step.setStatus ("❌ " ++
           "This email is already registered. Please sign in or use a different email."),
         Step.alert "Registration Failed"
           "This email is already registered. Please sign in or use a different email.",
         Step.setLoading false]) ∧
    (m.isEmpty = false → strIncludes m "Email already registered" = false →
      handleSignUp f (FetchOutcome.responds false (some m)) =
        [Step.setStatus "", Step.setLoading true,
         Step.setStatus "🔄 Creating your account...",
         Step.callRegister f.fullName f.email f.password f.phone f.nationalID f.role,
         Step.setStatus ("❌ " ++ m),
         Step.alert "Registration Failed" m,
         Step.setLoading false]) ∧
    (handleSignUp f (FetchOutcome.responds false none) =
        [Step.setStatus "", Step.setLoading true,
         Step.setStatus "🔄 Creating your account...",
         Step.callRegister f.fullName f.email f.password f.phone f.nationalID f.role,
         Step.setStatus ("❌ " ++ "Registration failed. Please try again."),
         Step.alert "Registration Failed" "Registration failed. Please try again.",
         Step.setLoading false]) ∧
    ((handleSignUp f (FetchOutcome.responds false (some m))).all
        (fun s => ! s.isNavigate) = true) ∧
    ((handleSignUp f (FetchOutcome.responds false (some m))).getLast? =
        some (Step.setLoading false)) := by
  obtain ⟨h1, h2, h3⟩ := (signUpValidate_none_iff f).1 hf
  refine ⟨fun hm hs => ?_, fun hm hs => ?_, ?_, ?_, ?_⟩
  · simp [handleSignUp, h1, h2, h3, hm, hs]
  · simp [handleSignUp, h1, h2, h3, hm, hs]
  · simp [handleSignUp, h1, h2, h3]
  · simp [handleSignUp, h1, h2, h3, Step.isNavigate]
  · simp [handleSignUp, h1, h2, h3, List.getLast?_cons_cons]

/-- Concrete instance of C4: the exact server message Email already
registered is mapped to the friendlier text, with loading reset at the
end. -/
theorem registration_non2xx_failure_witness :
    handleSignUp ⟨"Jane Doe", "jane@example.com", "secret1", "555-0100", "X123", "sender"⟩
        (FetchOutcome.responds false (some "Email already registered")) =
      [Step.setStatus "", Step.setLoading true,
       Step.setStatus "🔄 Creating your account...",
       Step.callRegister "Jane Doe" "jane@example.com" "secret1" "555-0100" "X123" "sender",
       Step.setStatus ("❌ " ++
         "This email is already registered. Please sign in or use a different email."),
       Step.alert "Registration Failed"
         "This email is already registered. Please sign in or use a different email.",
       Step.setLoading false] :=
  (registration_non2xx_failure
    ⟨"Jane Doe", "jane@example.com", "secret1", "555-0100", "X123", "sender"⟩
    "Email already registered" (by decide)).1 (by decide) (by decide)

/-- C5: a validated registration with a 2xx response records the success
status and acknowledgment, clears all six form fields to empty and
navigates to SignIn, the attempt ending with loading reset to false. -/
theorem registration_success_clears_and_navigates (f : SignUpForm)
    (m : Option String) (hf : signUpValidate f = none) :
    handleSignUp f (FetchOutcome.responds true m) =
      [Step.setStatus "", Step.setLoading true,
       Step.setStatus "🔄 Creating your account...",
       Step.callRegister f.fullName f.email f.password f.phone f.nationalID f.role,
       Step.setStatus "✅ Account created successfully!",
       Step.alert "🎉 Success!"
         "Your account has been created successfully! Please sign in to continue.",
       Step.setField "fullName" "", Step.setField "email" "",
       Step.setField "password" "", Step.setField "phone" "",
       Step.setField "nationalID" "", Step.setField "role" "",
       Step.navigate "SignIn" [], Step.setLoading false] := by
  obtain ⟨h1, h2, h3⟩ := (signUpValidate_none_iff f).1 hf
  simp [handleSignUp, h1, h2, h3]

/-- Concrete instance of C5, scenario A of the specification. -/
theorem registration_success_clears_and_navigates_witness :
    handleSignUp ⟨"Jane Doe", "jane@example.com", "secret1", "555-0100", "X123", "sender"⟩
        (FetchOutcome.responds true none) =
      [Step.setStatus "", Step.setLoading true,
       Step.setStatus "🔄 Creating your account...",
       Step.callRegister "Jane Doe" "jane@example.com" "secret1" "555-0100" "X123" "sender",
       Step.setStatus "✅ Account created successfully!",
       Step.alert "🎉 Success!"
         "Your account has been created successfully! Please sign in to continue.",
       Step.setField "fullName" "", Step.setField "email" "",
       Step.setField "password" "", Step.setField "phone" "",
       Step.setField "nationalID" "", Step.setField "role" "",
       Step.navigate "SignIn" [], Step.setLoading false] :=
  registration_success_clears_and_navigates
    ⟨"Jane Doe", "jane@example.com", "secret1", "555-0100", "X123", "sender"⟩
    none (by decide)

/-- C6: on every successful login the navigation recorded by the handler
targets AgentChat with the agent id and token taken from the gateway
result when the selected role is agent, and Dashboard carrying only the
role for every other role; no other navigation occurs. -/
theorem login_success_navigation (g : SignInForm) (t uid : String)
    (hg : signInValidate g = none) :
    (g.role = "agent" →
      Step.navigate "AgentChat" [("agentId", uid), ("token", t)] ∈
        handleSignIn g (LoginOutcome.success t uid)) ∧
    (g.role ≠ "agent" →
      Step.navigate "Dashboard" [("role", g.role)] ∈
        handleSignIn g (LoginOutcome.success t uid)) ∧
    (∀ target params, Step.navigate target params ∈
        handleSignIn g (LoginOutcome.success t uid) →
      (g.role = "agent" ∧ target = "AgentChat" ∧
        params = [("agentId", uid), ("token", t)]) ∨
      (g.role ≠ "agent" ∧ target = "Dashboard" ∧ params = [("role", g.role)])) := by
  obtain ⟨k1, k2⟩ := (signInValidate_none_iff g).1 hg
  by_cases hr : g.role = "agent"
  · refine ⟨fun _ => by simp [handleSignIn, k1, k2, hr],
            fun h => absurd hr h, ?_⟩
    intro target params hmem
    simp [handleSignIn, k1, k2, hr] at hmem
    exact Or.inl ⟨hr, hmem.1, hmem.2⟩
  · refine ⟨fun h => absurd h hr,
            fun _ => by simp [handleSignIn, k1, k2, hr], ?_⟩
    intro target params hmem
    simp [handleSignIn, k1, k2, hr] at hmem
    exact Or.inr ⟨hr, hmem.1, hmem.2⟩

/-- Concrete instance of C6, scenario C of the specification: role agent,
token t1, user id u1. -/
theorem login_success_navigation_witness :
    Step.navigate "AgentChat" [("agentId", "u1"), ("token", "t1")] ∈
      handleSignIn ⟨"jane@example.com", "secret1", "agent"⟩
        (LoginOutcome.success "t1" "u1") :=
  (login_success_navigation ⟨"jane@example.com", "secret1", "agent"⟩ "t1" "u1"
    (by decide)).1 (by decide)

/-- C8: the validators are deterministic pure functions of their input
strings: identical inputs yield identical results. -/
theorem validator_deterministic (f f₂ : SignUpForm) (g g₂ : SignInForm)
    (hf : f = f₂) (hg : g = g₂) :
    signUpValidate f = signUpValidate f₂ ∧
    signInValidate g = signInValidate g₂ := by
  subst hf
  subst hg
  exact ⟨rfl, rfl⟩

/-- Concrete instance of C8: evaluating the sign-up validator twice on the
same literal input gives the same result. -/
theorem validator_deterministic_witness :
    signUpValidate ⟨"Jane Doe", "jane@example.com", "secret1", "555-0100", "X123", "sender"⟩ =
      signUpValidate ⟨"Jane Doe", "jane@example.com", "secret1", "555-0100", "X123", "sender"⟩ :=
  (validator_deterministic
    ⟨"Jane Doe", "jane@example.com", "secret1", "555-0100", "X123", "sender"⟩
    ⟨"Jane Doe", "jane@example.com", "secret1", "555-0100", "X123", "sender"⟩
    ⟨"jane@example.com", "secret1", "sender"⟩
    ⟨"jane@example.com", "secret1", "sender"⟩ rfl rfl).1

/-- C9: whenever the login call resolves to a falsy value without
throwing, a validated sign-in attempt produces one fixed failure trace:
the invalid-credentials status and alert, no navigation, and a final
reset of loading to false.  The trace does not depend on why the result
was falsy, so an unreachable server producing a falsy resolution is
indistinguishable from a credential rejection here. -/
theorem login_falsy_is_invalid_credentials (g : SignInForm)
    (hg : signInValidate g = none) :
    handleSignIn g LoginOutcome.failure =
      [Step.setStatus "", Step.setLoading true,
       Step.setStatus "🔄 Signing in...",
       Step.callLogin g.email g.password g.role,
       Step.setStatus "❌ Login failed - Invalid credentials",
       Step.alert "Login Failed" "Invalid email or password. Please try again.",
       Step.setLoading false] ∧
    (handleSignIn g LoginOutcome.failure).all (fun s => ! s.isNavigate) = true := by
  obtain ⟨k1, k2⟩ := (signInValidate_none_iff g).1 hg
  constructor
  · simp [handleSignIn, k1, k2]
  · simp [handleSignIn, k1, k2, Step.isNavigate]

/-- Concrete instance of C9 on a valid sign-in form. -/
theorem login_falsy_is_invalid_credentials_witness :
    handleSignIn ⟨"jane@example.com", "secret1", "sender"⟩ LoginOutcome.failure =
      [Step.setStatus "", Step.setLoading true,
       Step.setStatus "🔄 Signing in...",
       Step.callLogin "jane@example.com" "secret1" "sender",
       Step.setStatus "❌ Login failed - Invalid credentials",
       Step.alert "Login Failed" "Invalid email or password. Please try again.",
       Step.setLoading false] :=
  (login_falsy_is_invalid_credentials ⟨"jane@example.com", "secret1", "sender"⟩
    (by decide)).1

/-- The role reached by any press sequence stays within the rendered
options. -/
theorem roleAfterPresses_mem (presses : List (Fin signInRoles.length)) :
    roleAfterPresses presses ∈ signInRoles := by
  have general : ∀ (l : List (Fin signInRoles.length)) (init : String),
      init ∈ signInRoles →
      l.foldl (fun _ i => signInRoles.get i) init ∈ signInRoles := by
    intro l
    induction l with
    | nil => exact fun init h => h
    | cons i rest ih =>
      intro init _
      exact ih (signInRoles.get i) (signInRoles.get_mem i.1 i.2)
  exact general presses "sender" (by decide)

/-- Every login invocation recorded by the sign-in handler carries exactly
the email, password and role of the form. -/
theorem callLogin_args (g : SignInForm) (p : LoginOutcome) (e pw r : String)
    (h : Step.callLogin e pw r ∈ handleSignIn g p) :
    e = g.email ∧ pw = g.password ∧ r = g.role := by
  cases h1 : signInMissing g <;> cases h2 : emailRegexTest g.email <;>
    rcases p with _ | _ | ⟨t, u⟩ <;> by_cases hr : g.role = "agent" <;>
    simp [handleSignIn, h1, h2, hr] at h <;>
    first
      | exact h
      | exact ⟨h.1, h.2.1, by rw [hr]; exact h.2.2⟩

/-- C10: the sign-in role starts as sender and every role-button press
keeps it one of the four rendered options, so although sign-in validation
never checks the role, every login invocation carries a non-empty role
from that enumeration. -/
theorem signin_role_always_in_enum (presses : List (Fin signInRoles.length))
    (g : SignInForm) (p : LoginOutcome)
    (hrole : g.role = roleAfterPresses presses) :
    g.role ∈ signInRoles ∧ g.role ≠ "" ∧
    (∀ e pw r, Step.callLogin e pw r ∈ handleSignIn g p →
      r ∈ signInRoles ∧ r ≠ "") := by
  have hmem : g.role ∈ signInRoles := hrole ▸ roleAfterPresses_mem presses
  have hall : ∀ x ∈ signInRoles, x ≠ "" := by decide
  refine ⟨hmem, hall g.role hmem, ?_⟩
  intro e pw r h
  obtain ⟨-, -, hr⟩ := callLogin_args g p e pw r h
  exact ⟨hr ▸ hmem, hr ▸ hall g.role hmem⟩

/-- Concrete instance of C10: with no presses the role is sender, which is
in the enumeration. -/
theorem signin_role_always_in_enum_witness :
    (SignInForm.mk "jane@example.com" "secret1" "sender").role ∈ signInRoles :=
  (signin_role_always_in_enum [] ⟨"jane@example.com", "secret1", "sender"⟩
    LoginOutcome.failure (by decide)).1
